import Mathlib

/-!
Verification of the health-journal core (storage layer and analyzer) of the
`health_journal_agent` package: a shallow embedding in Lean of
`storage.py` (the `HealthStore` class) and `tools.py` (the tool functions
`log_symptom`, `track_medication`, `analyze_patterns`,
`get_health_summary`), followed by theorems settling the specification
claims about them.

Modelling conventions:
* Python `int` becomes `Int`; Python list slicing `l[-limit:]` is embedded
  by `pySliceLast`, including the `-0 = 0` corner case.
* The wall clock (`datetime.now()`) is an input: timestamp strings and the
  `(hour, minute)` pair used by `strftime("%H:%M")` are passed as explicit
  parameters.
* `avg_severity = round(sum/count, 1)` is a float with one decimal digit;
  it is represented exactly as an integer number of tenths
  (`roundTenths`), computed by half-to-even rounding of the exact
  rational `10*sum/count`. Python rounds the IEEE double nearest to
  `sum/count` half-to-even; for every value reachable here (integer
  severities, group count at most 10, since the snapshot holds at most
  10 entries) a decimal tie `d.d5` forces a denominator dividing 4, which
  is exactly representable in binary, so exact-rational half-to-even
  rounding agrees with the Python result.
* `patterns.sort(key=..., reverse=True)` is a stable descending sort; any
  stable sort by the same key computes the same list, so it is embedded as
  a stable insertion sort `sortByCountDesc`.
-/

namespace HealthJournal

/-- One stored symptom dict: `{"symptom", "severity", "notes", "timestamp"}`
(`tools.py`, `log_symptom`). -/
structure SymptomEntry where
  symptom : String
  severity : Int
  notes : String
  timestamp : String
deriving DecidableEq

/-- One stored medication dict:
`{"medication", "dosage", "time", "timestamp"}` (`tools.py`,
`track_medication`). -/
structure MedicationEntry where
  medication : String
  dosage : String
  time : String
  timestamp : String
deriving DecidableEq

/-- The `HealthStore` state (`storage.py`): two plain lists. -/
structure HealthStore where
  symptoms : List SymptomEntry
  medications : List MedicationEntry
deriving DecidableEq

/-- The empty store created by `HealthStore.__init__`. -/
def HealthStore.empty : HealthStore := ⟨[], []⟩

/-- Python `l[-limit:]` for an arbitrary integer `limit`.
For `limit > 0` the start index is `max (len - limit) 0`; for `limit ≤ 0`
the slice is `l[-limit:]` from the front (in particular `l[-0:] = l[0:]`
is the whole list). -/
def pySliceLast {α : Type} (l : List α) (limit : Int) : List α :=
  if 0 < limit then l.drop (l.length - limit.toNat)
  else l.drop (-limit).toNat

/-- `HealthStore.add_symptom`: unconditional append. -/
def HealthStore.add_symptom (st : HealthStore) (d : SymptomEntry) : HealthStore :=
  { st with symptoms := st.symptoms ++ [d] }

/-- `HealthStore.get_symptoms(limit=10)`: `self.symptoms[-limit:]`. -/
def HealthStore.get_symptoms (st : HealthStore) (limit : Int := 10) :
    List SymptomEntry :=
  pySliceLast st.symptoms limit

/-- `HealthStore.add_medication`: unconditional append. -/
def HealthStore.add_medication (st : HealthStore) (d : MedicationEntry) :
    HealthStore :=
  { st with medications := st.medications ++ [d] }

/-- `HealthStore.get_medications(limit=10)`: `self.medications[-limit:]`. -/
def HealthStore.get_medications (st : HealthStore) (limit : Int := 10) :
    List MedicationEntry :=
  pySliceLast st.medications limit

/-- Result dict of `log_symptom` / `track_medication`: either
`{"status": "success", "message": ...}` or
`{"status": "error", "error_message": ...}`. -/
inductive ToolResult where
  | success (message : String)
  | error (error_message : String)
deriving DecidableEq

/-- The `"status"` field of a `ToolResult`. -/
def ToolResult.status : ToolResult → String
  | .success _ => "success"
  | .error _ => "error"

/-- `log_symptom(symptom_name, severity, notes="")` (`tools.py`).
`now` is the `datetime.now().isoformat()` timestamp. -/
def log_symptom (st : HealthStore) (symptom_name : String) (severity : Int)
    (notes : String) (now : String) : ToolResult × HealthStore :=
  if ¬ (1 ≤ severity ∧ severity ≤ 10) then
    (.error "Severity must be between 1 and 10", st)
  else
    (.success ("Logged " ++ symptom_name ++ " (severity " ++ toString severity ++ ")"),
     st.add_symptom ⟨symptom_name, severity, notes, now⟩)

/-- Zero-padded two-digit decimal, as produced by `strftime` fields. -/
def pad2 (n : Nat) : String :=
  if n < 10 then "0" ++ toString n else toString n

/-- `datetime.now().strftime("%H:%M")` for a clock reading `(h, m)`. -/
def strftimeHM (h m : Nat) : String :=
  pad2 h ++ ":" ++ pad2 m

/-- `track_medication(medication_name, dosage, time_taken="")` (`tools.py`).
`nowH`/`nowM` is the wall-clock hour/minute used when `time_taken` is the
empty string; `nowIso` is the ISO timestamp. -/
def track_medication (st : HealthStore) (medication_name dosage time_taken : String)
    (nowH nowM : Nat) (nowIso : String) : ToolResult × HealthStore :=
  let t := if time_taken = "" then strftimeHM nowH nowM else time_taken
  (.success ("Tracked " ++ medication_name ++ " (" ++ dosage ++ ")"),
   st.add_medication ⟨medication_name, dosage, t, nowIso⟩)

/-- One group of the `counts` / `severity_sums` dicts in
`analyze_patterns`, keyed by exact symptom string. -/
structure Tally where
  name : String
  count : Nat
  sevSum : Int
deriving DecidableEq

/-- One loop step of `analyze_patterns`: update the dicts for one entry.
A Python dict keeps insertion order, so an existing key is updated in
place and a new key is appended at the end. -/
def bump : List Tally → String → Int → List Tally
  | [], n, sev => [⟨n, 1, sev⟩]
  | g :: rest, n, sev =>
    if g.name = n then ⟨g.name, g.count + 1, g.sevSum + sev⟩ :: rest
    else g :: bump rest n sev

/-- The `counts` / `severity_sums` dicts after the `for s in symptoms`
loop, in key-insertion (first-seen) order. -/
def tally (l : List SymptomEntry) : List Tally :=
  l.foldl (fun acc e => bump acc e.symptom e.severity) []

/-- Round the fraction `a / b` (with `b > 0`) half to even to an integer:
the tie rule of Python `round` on the exact value. -/
def roundHalfEvenDiv (a b : ℤ) : ℤ :=
  let q := Int.fdiv a b
  let r := a - b * q
  if 2 * r < b then q
  else if b < 2 * r then q + 1
  else if q % 2 = 0 then q else q + 1

/-- Python `round(sum/count, 1)`, returned as an exact number of tenths:
`roundTenths s c = 10 * round(s/c, 1)`. -/
def roundTenths (sum : ℤ) (count : Nat) : ℤ :=
  roundHalfEvenDiv (10 * sum) (count : ℤ)

/-- One element of the `patterns` list:
`{"symptom": ..., "count": ..., "avg_severity": ...}`.
`avg_severity` is the one-decimal float of the source, represented
exactly as its number of tenths (so the float `8.0` is the integer
`80`). -/
structure PatternResult where
  symptom : String
  count : Nat
  avg_severity : Int
deriving DecidableEq

/-- The `patterns` list of `analyze_patterns` before sorting: one
`PatternResult` per dict key, in key-insertion order. -/
def groupPatterns (l : List SymptomEntry) : List PatternResult :=
  (tally l).map (fun g => ⟨g.name, g.count, roundTenths g.sevSum g.count⟩)

/-- Insert one element into a list already sorted by `count` descending,
after every element of strictly greater or equal count (stable). -/
def insertByCount (x : PatternResult) : List PatternResult → List PatternResult
  | [] => [x]
  | y :: ys => if y.count ≤ x.count then x :: y :: ys else y :: insertByCount x ys

/-- Stable sort by `count` descending, embedding
`patterns.sort(key=lambda x: x["count"], reverse=True)` (Python list sort
is stable, so equal counts keep their relative order). -/
def sortByCountDesc : List PatternResult → List PatternResult
  | [] => []
  | x :: xs => insertByCount x (sortByCountDesc xs)

/-- The sorted `patterns` list computed by `analyze_patterns` from a
snapshot. -/
def patternsOf (l : List SymptomEntry) : List PatternResult :=
  sortByCountDesc (groupPatterns l)

/-- Result dict of `analyze_patterns`: either
`{"status": "no_data", "message": ...}` or
`{"status": "success", "patterns": ..., "total_entries": ...}`. -/
inductive AnalyzeResult where
  | no_data (message : String)
  | success (patterns : List PatternResult) (total_entries : Nat)
deriving DecidableEq

/-- The `"status"` field of an `AnalyzeResult`. -/
def AnalyzeResult.status : AnalyzeResult → String
  | .no_data _ => "no_data"
  | .success _ _ => "success"

/-- The `"total_entries"` field (absent on the `no_data` branch). -/
def AnalyzeResult.total_entries : AnalyzeResult → Option Nat
  | .no_data _ => none
  | .success _ n => some n

/-- The `"patterns"` field (absent on the `no_data` branch). -/
def AnalyzeResult.patterns : AnalyzeResult → Option (List PatternResult)
  | .no_data _ => none
  | .success ps _ => some ps

/-- `analyze_patterns()` (`tools.py`).  Note the snapshot is
`store.get_symptoms()` with the DEFAULT limit, i.e. the last 10 entries. -/
def analyze_patterns (st : HealthStore) : AnalyzeResult :=
  let symptoms := st.get_symptoms
  if symptoms.isEmpty then .no_data "No symptoms logged yet"
  else .success (patternsOf symptoms) symptoms.length

/-- `str(...)` of a Python float that is exactly `t/10` tenths with
`t ≥ 0`, as produced by `round(x, 1)` for the nonnegative averages
reachable here (e.g. tenths `80` renders as `"8.0"`, `75` as `"7.5"`). -/
def showAvg (t : Int) : String :=
  toString (t / 10) ++ "." ++ toString (t % 10)

/-- One `"  - <symptom>: <count>x (avg severity <avg>)\n"` line of the
summary. -/
def patternLine (p : PatternResult) : String :=
  "  - " ++ p.symptom ++ ": " ++ toString p.count ++ "x (avg severity "
    ++ showAvg p.avg_severity ++ ")\n"

/-- The `"=" * 50` separator line. -/
def eqBar : String := String.mk (List.replicate 50 (Char.ofNat 61))

/-- Result dict of `get_health_summary`. -/
structure SummaryResult where
  status : String
  summary : String
  symptoms : List SymptomEntry
  medications : List MedicationEntry
deriving DecidableEq

/-- `get_health_summary()` (`tools.py`).  `today` is
`datetime.now().strftime("%Y-%m-%d")`.  Both snapshots use the default
limit 10, and the pattern block appears only when `analyze_patterns`
reported `"success"`. -/
def get_health_summary (st : HealthStore) (today : String) : SummaryResult :=
  let symptoms := st.get_symptoms
  let meds := st.get_medications
  let pat := analyze_patterns st
  let base :=
    "Health Summary - " ++ today ++ "\n" ++ eqBar ++ "\n"
      ++ "Symptoms logged: " ++ toString symptoms.length ++ "\n"
      ++ "Medications tracked: " ++ toString meds.length ++ "\n"
  let summary :=
    match pat with
    | .success ps _ =>
        base ++ "\nTop symptoms:\n"
          ++ ((ps.take 3).foldl (fun acc p => acc ++ patternLine p) "")
    | .no_data _ => base
  ⟨"success", summary, symptoms, meds⟩

/-- First-seen order of the symptom names of a snapshot: the key-insertion
order of a Python dict filled by the aggregation loop. -/
def firstSeenNames (l : List SymptomEntry) : List String :=
  l.foldl (fun ks e => if e.symptom ∈ ks then ks else ks ++ [e.symptom]) []

/-- `pat` occurs as a contiguous substring of `s`. -/
def strContains (s pat : String) : Prop :=
  ∃ l r, s.data = l ++ pat.data ++ r

/-- The stored `time` string is a zero-padded 24-hour `HH:MM`. -/
def isHHMM (s : String) : Bool :=
  match s.data with
  | [a, b, c, d, e] =>
    a.isDigit && b.isDigit && c = Char.ofNat 58 && d.isDigit && e.isDigit
      && ((a.toNat - 48) * 10 + (b.toNat - 48) < 24)
      && ((d.toNat - 48) * 10 + (e.toNat - 48) < 60)
  | _ => false

/-- Object-level (heap) refinement of the store, for the aliasing claim:
in CPython the lists hold references to mutable dict objects, and the
slice `self.symptoms[-limit:]` copies the list of references, not the
dicts.  `heap` maps a reference to its current dict contents and `refs`
is the store's internal list of references. -/
structure RefStore (α : Type) where
  heap : List α
  refs : List Nat
deriving DecidableEq

/-- `add_symptom`/`add_medication` at the object level: allocate a fresh
object and append its reference. -/
def RefStore.addEntry {α : Type} (st : RefStore α) (d : α) : RefStore α :=
  ⟨st.heap ++ [d], st.refs ++ [st.heap.length]⟩

/-- `get_symptoms`/`get_medications` at the object level: the slice
returns a NEW list holding the SAME references (a shallow copy). -/
def RefStore.getRecent {α : Type} (st : RefStore α) (limit : Int := 10) : List Nat :=
  pySliceLast st.refs limit

/-- What a subsequent read observes: the recent references, dereferenced
through the current heap. -/
def RefStore.readRecent {α : Type} (st : RefStore α) (limit : Int := 10) :
    List (Option α) :=
  (st.getRecent limit).map (fun r => st.heap.get? r)

/-- An in-place mutation of one entry object (e.g. `d["severity"] = 99`
on a dict reached through the returned list). -/
def RefStore.writeAt {α : Type} (st : RefStore α) (r : Nat) (d : α) : RefStore α :=
  ⟨st.heap.set r d, st.refs⟩

/-! ## Helper lemmas -/

/-- `get_symptoms` with a positive limit is a drop of the stored list. -/
theorem get_symptoms_pos (st : HealthStore) (limit : Int) (h : 0 < limit) :
    st.get_symptoms limit = st.symptoms.drop (st.symptoms.length - limit.toNat) := by
  unfold HealthStore.get_symptoms pySliceLast
  rw [if_pos h]

/-- Membership in `insertByCount`. -/
theorem mem_insertByCount {z x : PatternResult} {l : List PatternResult} :
    z ∈ insertByCount x l ↔ z = x ∨ z ∈ l := by
  induction l with
  | nil => simp [insertByCount]
  | cons y ys ih =>
    unfold insertByCount
    split
    · simp [List.mem_cons]
    · simp [List.mem_cons, ih]
      tauto

/-- Inserting preserves sortedness by `count` descending. -/
theorem pairwise_insertByCount {x : PatternResult} {l : List PatternResult}
    (hl : l.Pairwise (fun a b => b.count ≤ a.count)) :
    (insertByCount x l).Pairwise (fun a b => b.count ≤ a.count) := by
  induction l with
  | nil => simp [insertByCount]
  | cons y ys ih =>
    rcases List.pairwise_cons.mp hl with ⟨hy, hys⟩
    unfold insertByCount
    split
    · rename_i hcount
      refine List.pairwise_cons.mpr ⟨?_, hl⟩
      intro z hz
      rcases List.mem_cons.mp hz with rfl | hz2
      · exact hcount
      · exact le_trans (hy z hz2) hcount
    · rename_i hcount
      push_neg at hcount
      refine List.pairwise_cons.mpr ⟨?_, ih hys⟩
      intro z hz
      rcases mem_insertByCount.mp hz with rfl | hz2
      · exact le_of_lt hcount
      · exact hy z hz2

/-- The sorted pattern list is sorted by `count` descending. -/
theorem pairwise_sortByCountDesc (l : List PatternResult) :
    (sortByCountDesc l).Pairwise (fun a b => b.count ≤ a.count) := by
  induction l with
  | nil => simp [sortByCountDesc]
  | cons x xs ih => exact pairwise_insertByCount ih

/-- How `insertByCount` interacts with filtering by one count value. -/
theorem filter_insertByCount (x : PatternResult) (l : List PatternResult) (c : Nat) :
    (insertByCount x l).filter (fun p => p.count == c)
      = if x.count = c then x :: l.filter (fun p => p.count == c)
        else l.filter (fun p => p.count == c) := by
  induction l with
  | nil => by_cases h : x.count = c <;> simp [insertByCount, h]
  | cons y ys ih =>
    unfold insertByCount
    split
    · rename_i hc
      by_cases h : x.count = c <;> simp [List.filter_cons, h]
    · rename_i hc
      push_neg at hc
      by_cases hy2 : y.count = c
      · have hx2 : x.count ≠ c := by omega
        simp [List.filter_cons, hy2, hx2, ih]
      · by_cases hx2 : x.count = c <;> simp [List.filter_cons, hy2, hx2, ih]

/-- Stability of the sort: for each count value, the elements of that
count are exactly the elements of that count of the input, in the same
order. -/
theorem filter_sortByCountDesc (l : List PatternResult) (c : Nat) :
    (sortByCountDesc l).filter (fun p => p.count == c)
      = l.filter (fun p => p.count == c) := by
  induction l with
  | nil => rfl
  | cons x xs ih =>
    rw [sortByCountDesc, filter_insertByCount]
    by_cases h : x.count = c <;> simp [List.filter_cons, h, ih]

/-- The keys of `bump` are the keys of the accumulator, with the new name
appended when absent (the key-insertion behaviour of a Python dict). -/
theorem bump_keys (acc : List Tally) (n : String) (sev : Int) :
    (bump acc n sev).map Tally.name
      = if n ∈ acc.map Tally.name then acc.map Tally.name
        else acc.map Tally.name ++ [n] := by
  induction acc with
  | nil => simp [bump]
  | cons g rest ih =>
    unfold bump
    split
    · rename_i h
      simp [List.map_cons, h]
    · rename_i h
      have h2 : ¬ (n = g.name) := fun hn => h hn.symm
      simp [List.map_cons, ih, h2]
      split <;> simp

/-- The keys of the aggregation dict are the symptom names in first-seen
order. -/
theorem tally_keys (l : List SymptomEntry) :
    (tally l).map Tally.name = firstSeenNames l := by
  suffices h : ∀ acc : List Tally,
      (l.foldl (fun a e => bump a e.symptom e.severity) acc).map Tally.name
        = l.foldl (fun ks e => if e.symptom ∈ ks then ks else ks ++ [e.symptom])
            (acc.map Tally.name) from h []
  induction l with
  | nil => intro acc; rfl
  | cons e es ih =>
    intro acc
    simp only [List.foldl_cons]
    rw [ih (bump acc e.symptom e.severity), bump_keys]

/-- The symptom names of the pre-sort pattern list are the dict keys. -/
theorem groupPatterns_names (l : List SymptomEntry) :
    (groupPatterns l).map PatternResult.symptom = (tally l).map Tally.name := by
  unfold groupPatterns
  rw [List.map_map]
  rfl

/-- On the `"success"` branch, the returned patterns are
`patternsOf` of the snapshot. -/
theorem analyze_success_patterns {st : HealthStore} {ps : List PatternResult}
    {n : Nat} (h : analyze_patterns st = .success ps n) :
    ps = patternsOf st.get_symptoms := by
  unfold analyze_patterns at h
  simp only at h
  split at h
  · cases h
  · cases h; rfl

/-- Projection of an entry to the fields the analyzer reads. -/
def scrub (e : SymptomEntry) : SymptomEntry := ⟨e.symptom, e.severity, "", ""⟩

/-- The aggregation dict ignores notes and timestamps. -/
theorem tally_map_scrub (l : List SymptomEntry) : tally (l.map scrub) = tally l := by
  unfold tally
  rw [List.foldl_map]
  rfl

/-- Slicing commutes with `map`. -/
theorem pySliceLast_map {α β : Type} (f : α → β) (l : List α) (limit : Int) :
    pySliceLast (l.map f) limit = (pySliceLast l limit).map f := by
  unfold pySliceLast
  rw [List.length_map]
  split <;> rw [← List.map_drop]

/-- The sorted pattern list ignores notes and timestamps. -/
theorem patternsOf_map_scrub (l : List SymptomEntry) :
    patternsOf (l.map scrub) = patternsOf l := by
  unfold patternsOf groupPatterns
  rw [tally_map_scrub]

/-- `analyze_patterns` depends only on the symptom/severity fields of the
stored entries (and not on the medication list). -/
theorem analyze_patterns_scrub (st : HealthStore) :
    analyze_patterns ⟨st.symptoms.map scrub, []⟩ = analyze_patterns st := by
  unfold analyze_patterns HealthStore.get_symptoms
  have h1 : ∀ L : List SymptomEntry, (L.map scrub).isEmpty = L.isEmpty := by
    intro L; cases L <;> rfl
  simp only [pySliceLast_map, h1, patternsOf_map_scrub, List.length_map]

/-- The bounded fact behind the `HH:MM` claim: `strftime("%H:%M")` of any
valid clock reading is a well-formed zero-padded time string. -/
theorem strftimeHM_isHHMM : ∀ h < 24, ∀ m < 60, isHHMM (strftimeHM h m) = true := by
  decide

/-- Prepending preserves substring containment. -/
theorem strContains_mono_left (s t pat : String) (h : strContains t pat) :
    strContains (s ++ t) pat := by
  obtain ⟨l, r, hl⟩ := h
  exact ⟨s.data ++ l, r, by simp [String.data_append, hl]⟩

/-- A string contains the middle part of an explicit decomposition. -/
theorem strContains_of_append (pre pat post : String) :
    strContains (pre ++ pat ++ post) pat :=
  ⟨pre.data, post.data, by simp [String.data_append]⟩

/-! ## Concrete scenario stores -/

/-- The store after logging `("headache",7)`, `("headache",9)`,
`("nausea",4)` in that order into an empty store; the wall-clock
timestamps of the three calls are parameters. -/
def scenarioHHN (t1 t2 t3 : String) : HealthStore :=
  (log_symptom (log_symptom
    (log_symptom HealthStore.empty "headache" 7 "" t1).2
    "headache" 9 "" t2).2 "nausea" 4 "" t3).2

/-- The store after logging `("a",5)`, `("b",5)` into an empty store. -/
def scenarioAB (t1 t2 : String) : HealthStore :=
  (log_symptom (log_symptom HealthStore.empty "a" 5 "" t1).2 "b" 5 "" t2).2

/-- The symptom list of the headache/nausea scenario. -/
theorem scenarioHHN_symptoms (t1 t2 t3 : String) :
    (scenarioHHN t1 t2 t3).symptoms
      = [⟨"headache", 7, "", t1⟩, ⟨"headache", 9, "", t2⟩, ⟨"nausea", 4, "", t3⟩] := by
  simp +decide [scenarioHHN, log_symptom, HealthStore.add_symptom, HealthStore.empty]

/-- The medication list of the headache/nausea scenario is empty. -/
theorem scenarioHHN_medications (t1 t2 t3 : String) :
    (scenarioHHN t1 t2 t3).medications = [] := by
  simp +decide [scenarioHHN, log_symptom, HealthStore.add_symptom, HealthStore.empty]

/-- `analyze_patterns` on the headache/nausea scenario, for any
timestamps: headache first (count 2, average 8.0 i.e. 80 tenths), then
nausea (count 1, average 4.0), with `total_entries = 3`. -/
theorem analyze_scenarioHHN (t1 t2 t3 : String) :
    analyze_patterns (scenarioHHN t1 t2 t3)
      = .success [⟨"headache", 2, 80⟩, ⟨"nausea", 1, 40⟩] 3 := by
  rw [← analyze_patterns_scrub]
  rw [scenarioHHN_symptoms]
  simp only [List.map, scrub]
  decide

/-! ## Claim theorems -/

/-- A symptom entry used to build counterexample stores. -/
def e0 : SymptomEntry := ⟨"headache", 5, "", ""⟩

/-- A store holding 11 symptom entries (more than the snapshot limit). -/
def st11 : HealthStore := ⟨List.replicate 11 e0, []⟩

/-- Claim C1, counterexample: the claim says the snapshot holds up to the
100 most recent entries and that `total_entries = n` for every store with
`n ≤ 100` entries.  The code calls `store.get_symptoms()` with the
default limit 10, so a store with 11 entries (11 ≤ 100) yields
`total_entries = 10 ≠ 11`. -/
theorem analyze_patterns_snapshot_ten_counterexample :
    st11.symptoms.length = 11
    ∧ 11 ≤ 100
    ∧ (analyze_patterns st11).total_entries = some 10
    ∧ (analyze_patterns st11).total_entries ≠ some st11.symptoms.length := by
  decide

/-- Claim C1, amended: `analyze_patterns` snapshots up to the 10 (not
100) most recent entries; for every non-empty store it returns status
`"success"` with `total_entries` equal to the snapshot length
`min n 10`; in particular `total_entries = n` whenever `1 ≤ n ≤ 10`. -/
theorem analyze_patterns_total_entries_amended (st : HealthStore)
    (h : st.symptoms ≠ []) :
    (analyze_patterns st).status = "success"
    ∧ (analyze_patterns st).total_entries = some (min st.symptoms.length 10) := by
  have hs := get_symptoms_pos st 10 (by norm_num)
  have hlen : (st.get_symptoms).length = min st.symptoms.length 10 := by
    rw [hs, List.length_drop]
    have ht : ((10 : Int)).toNat = 10 := rfl
    rw [ht]
    omega
  have hpos : 0 < st.symptoms.length := List.length_pos.mpr h
  have hne : st.get_symptoms ≠ [] := by
    intro hnil
    rw [hnil] at hlen
    simp at hlen
    omega
  have hbe : st.get_symptoms.isEmpty = false := by
    cases hsg : st.get_symptoms with
    | nil => exact absurd hsg hne
    | cons a l => rfl
  unfold analyze_patterns
  simp only [hbe, Bool.false_eq_true, if_false]
  exact ⟨rfl, by rw [AnalyzeResult.total_entries, hlen]⟩

/-- Claim C1, witness for the amended theorem at the 11-entry store. -/
theorem analyze_patterns_total_entries_amended_witness :
    (analyze_patterns st11).status = "success"
    ∧ (analyze_patterns st11).total_entries = some (min st11.symptoms.length 10) :=
  analyze_patterns_total_entries_amended st11 (by decide)

/-- Claim C2: `log_symptom` returns status `"error"` (with the fixed
error message) exactly when `severity < 1` or `severity > 10`, leaving
the store unchanged; otherwise it returns `"success"` and appends
exactly one entry. -/
theorem log_symptom_severity_validation (st : HealthStore) (name : String)
    (sev : Int) (notes ts : String) :
    ((log_symptom st name sev notes ts).1.status = "error" ↔ sev < 1 ∨ 10 < sev)
    ∧ ((log_symptom st name sev notes ts).1.status = "success" ↔ 1 ≤ sev ∧ sev ≤ 10)
    ∧ ((log_symptom st name sev notes ts).1
        = if sev < 1 ∨ 10 < sev then .error "Severity must be between 1 and 10"
          else .success ("Logged " ++ name ++ " (severity " ++ toString sev ++ ")"))
    ∧ ((log_symptom st name sev notes ts).2
        = if sev < 1 ∨ 10 < sev then st else st.add_symptom ⟨name, sev, notes, ts⟩)
    ∧ ((log_symptom st name sev notes ts).2.symptoms.length
        = if sev < 1 ∨ 10 < sev then st.symptoms.length
          else st.symptoms.length + 1) := by
  unfold log_symptom
  by_cases h : 1 ≤ sev ∧ sev ≤ 10
  · have h2 : ¬ (sev < 1 ∨ 10 < sev) := by omega
    simp +decide [h, h2, ToolResult.status, HealthStore.add_symptom]
  · have h2 : sev < 1 ∨ 10 < sev := by omega
    simp +decide [h, h2, ToolResult.status]

/-- Claim C3: the returned pattern sequence is sorted by `count`
descending; for every count value the groups with that count appear in
the pre-sort (dict key-insertion) order, and the dict keys are in
first-seen order of the snapshot; concretely, logging `("a",5)`,
`("b",5)` yields the pattern order `[a, b]`. -/
theorem analyze_patterns_sorted_stable (st : HealthStore)
    (ps : List PatternResult) (n : Nat)
    (h : analyze_patterns st = .success ps n) :
    ps.Pairwise (fun a b => b.count ≤ a.count)
    ∧ (∀ c : Nat, ps.filter (fun p => p.count == c)
        = (groupPatterns st.get_symptoms).filter (fun p => p.count == c))
    ∧ (groupPatterns st.get_symptoms).map PatternResult.symptom
        = firstSeenNames st.get_symptoms
    ∧ (analyze_patterns (scenarioAB "" "")).patterns
        = some [⟨"a", 1, 50⟩, ⟨"b", 1, 50⟩] := by
  have hps := analyze_success_patterns h
  subst hps
  unfold patternsOf
  refine ⟨pairwise_sortByCountDesc _, fun c => filter_sortByCountDesc _ c, ?_, by decide⟩
  rw [groupPatterns_names, tally_keys]

/-- Claim C3, witness at the tie-break scenario store. -/
theorem analyze_patterns_sorted_stable_witness :
    ([⟨"a", 1, 50⟩, ⟨"b", 1, 50⟩] : List PatternResult).Pairwise
        (fun a b => b.count ≤ a.count)
    ∧ ([⟨"a", 1, 50⟩, ⟨"b", 1, 50⟩] : List PatternResult).filter
          (fun p => p.count == 1)
        = (groupPatterns ((scenarioAB "" "").get_symptoms)).filter
            (fun p => p.count == 1)
    ∧ (groupPatterns ((scenarioAB "" "").get_symptoms)).map PatternResult.symptom
        = firstSeenNames ((scenarioAB "" "").get_symptoms) := by
  have h := analyze_patterns_sorted_stable (scenarioAB "" "")
    [⟨"a", 1, 50⟩, ⟨"b", 1, 50⟩] 2 (by decide)
  exact ⟨h.1, h.2.1 1, h.2.2.1⟩

/-- Claim C4: after logging `("headache",7)`, `("headache",9)`,
`("nausea",4)` into an empty store, `analyze_patterns` returns status
`"success"`, patterns exactly headache (count 2, average 8.0) then
nausea (count 1, average 4.0), and `total_entries = 3`; the tenths
values 80 and 40 render as the floats `"8.0"` and `"4.0"`. -/
theorem analyze_patterns_concrete_aggregation (t1 t2 t3 : String) :
    analyze_patterns (scenarioHHN t1 t2 t3)
      = .success [⟨"headache", 2, 80⟩, ⟨"nausea", 1, 40⟩] 3
    ∧ (analyze_patterns (scenarioHHN t1 t2 t3)).status = "success"
    ∧ showAvg 80 = "8.0" ∧ showAvg 40 = "4.0" := by
  refine ⟨analyze_scenarioHHN t1 t2 t3, ?_, by decide, by decide⟩
  rw [analyze_scenarioHHN t1 t2 t3]
  rfl

/-- A one-entry store in the object-level model. -/
def aliasedStore : RefStore SymptomEntry :=
  RefStore.addEntry ⟨[], []⟩ ⟨"headache", 5, "", ""⟩

/-- Claim C5, counterexample: the slice returned by `get_symptoms` is a
shallow copy — the caller holds references to the store's own entry
dicts, so mutating the entry reached through the returned value (here
reference 0) changes what a subsequent read observes.  The snapshot is
therefore not defensive in the claimed sense. -/
theorem get_symptoms_shallow_copy_counterexample :
    aliasedStore.getRecent = [0]
    ∧ (aliasedStore.writeAt 0 ⟨"headache", 99, "mutated via the returned entry", ""⟩).readRecent
        ≠ aliasedStore.readRecent := by
  decide

/-- Claim C5, amended: the returned value is a fresh list, so the
caller cannot change WHICH entries the store holds through it (the
internal reference sequence, and hence the slice itself, is unaffected
by any entry write), but the entries are shared: after an in-place
entry mutation, a subsequent read dereferences the same references
through the updated heap. -/
theorem get_symptoms_shallow_copy_amended {α : Type} (st : RefStore α)
    (limit : Int) (r : Nat) (d : α) :
    (st.writeAt r d).refs = st.refs
    ∧ (st.writeAt r d).getRecent limit = st.getRecent limit
    ∧ (st.writeAt r d).readRecent limit
        = (st.getRecent limit).map (fun q => (st.heap.set r d).get? q) :=
  ⟨rfl, rfl, rfl⟩

/-- Claim C6: for a positive `limit`, `get_symptoms` returns exactly the
final segment of the stored list (insertion order preserved, oldest of
the window first) of length `min limit n`; it returns the whole list
when `n ≤ limit`; and the default limit is 10. -/
theorem get_symptoms_limit_spec (st : HealthStore) (limit : Int)
    (h : 0 < limit) :
    st.symptoms.take (st.symptoms.length - limit.toNat) ++ st.get_symptoms limit
        = st.symptoms
    ∧ (st.get_symptoms limit).length = min limit.toNat st.symptoms.length
    ∧ st.get_symptoms limit
        = (if (st.symptoms.length : Int) ≤ limit then st.symptoms
           else st.symptoms.drop (st.symptoms.length - limit.toNat))
    ∧ HealthStore.get_symptoms st = HealthStore.get_symptoms st 10 := by
  rw [get_symptoms_pos st limit h]
  refine ⟨List.take_append_drop _ _, ?_, ?_, rfl⟩
  · rw [List.length_drop]
    omega
  · split
    · rename_i hle
      have hz : st.symptoms.length - limit.toNat = 0 := by omega
      rw [hz, List.drop_zero]
    · rfl

/-- A three-entry store used as a concrete witness input. -/
def stWit : HealthStore :=
  ⟨[⟨"a", 2, "", ""⟩, ⟨"b", 3, "", ""⟩, ⟨"c", 4, "", ""⟩], []⟩

/-- Claim C6, witness at a three-entry store with limit 2. -/
theorem get_symptoms_limit_spec_witness :
    stWit.symptoms.take (stWit.symptoms.length - (2 : Int).toNat)
        ++ stWit.get_symptoms 2 = stWit.symptoms
    ∧ (stWit.get_symptoms 2).length = min (2 : Int).toNat stWit.symptoms.length
    ∧ stWit.get_symptoms 2
        = (if (stWit.symptoms.length : Int) ≤ 2 then stWit.symptoms
           else stWit.symptoms.drop (stWit.symptoms.length - (2 : Int).toNat))
    ∧ HealthStore.get_symptoms stWit = HealthStore.get_symptoms stWit 10 :=
  get_symptoms_limit_spec stWit 2 (by decide)

/-- Claim C7: `track_medication` always returns status `"success"` and
appends exactly one medication entry; when `time_taken` is empty the
stored time is `strftime("%H:%M")` of the clock, which for any valid
clock reading is a zero-padded `HH:MM` string with hours in `[00,23]`
and minutes in `[00,59]`. -/
theorem track_medication_always_success (st : HealthStore)
    (name dosage time_taken : String) (h m : Nat) (iso : String)
    (hh : h < 24) (hm : m < 60) :
    (track_medication st name dosage time_taken h m iso).1.status = "success"
    ∧ (track_medication st name dosage time_taken h m iso).2.medications
        = st.medications
            ++ [⟨name, dosage,
                 if time_taken = "" then strftimeHM h m else time_taken, iso⟩]
    ∧ (track_medication st name dosage time_taken h m iso).2.medications.length
        = st.medications.length + 1
    ∧ isHHMM (strftimeHM h m) = true := by
  refine ⟨rfl, rfl, ?_, strftimeHM_isHHMM h hh m hm⟩
  simp [track_medication, HealthStore.add_medication]

/-- Claim C7, witness at the empty store with an auto-filled time. -/
theorem track_medication_always_success_witness :
    (track_medication HealthStore.empty "aspirin" "100mg" "" 8 30 "iso").1.status
        = "success"
    ∧ (track_medication HealthStore.empty "aspirin" "100mg" "" 8 30 "iso").2.medications
        = HealthStore.empty.medications
            ++ [⟨"aspirin", "100mg",
                 if ("" : String) = "" then strftimeHM 8 30 else "", "iso"⟩]
    ∧ (track_medication HealthStore.empty "aspirin" "100mg" "" 8 30 "iso").2.medications.length
        = HealthStore.empty.medications.length + 1
    ∧ isHHMM (strftimeHM 8 30) = true :=
  track_medication_always_success HealthStore.empty "aspirin" "100mg" "" 8 30 "iso"
    (by decide) (by decide)

set_option maxRecDepth 100000

/-- The exact summary text of the headache/nausea scenario: a dated
header, the separator bar, both totals, and the top-pattern block in
sorted order. -/
theorem summary_scenarioHHN (t1 t2 t3 today : String) :
    (get_health_summary (scenarioHHN t1 t2 t3) today).summary
      = "Health Summary - "
          ++ (today
            ++ ("\n" ++ eqBar
              ++ "\nSymptoms logged: 3\nMedications tracked: 0\n\nTop symptoms:\n  - headache: 2x (avg severity 8.0)\n  - nausea: 1x (avg severity 4.0)\n")) := by
  have hsn : (scenarioHHN t1 t2 t3).get_symptoms
      = [⟨"headache", 7, "", t1⟩, ⟨"headache", 9, "", t2⟩, ⟨"nausea", 4, "", t3⟩] := by
    show pySliceLast (scenarioHHN t1 t2 t3).symptoms 10 = _
    rw [scenarioHHN_symptoms]
    rfl
  have hmn : (scenarioHHN t1 t2 t3).get_medications = [] := by
    show pySliceLast (scenarioHHN t1 t2 t3).medications 10 = _
    rw [scenarioHHN_medications]
    rfl
  unfold get_health_summary
  simp only [hsn, hmn, analyze_scenarioHHN, List.length_cons, List.length_nil]
  apply String.ext
  simp only [String.data_append, List.append_assoc]
  rw [List.append_right_inj, List.append_right_inj]
  decide

/-- Claim C8: after the headache/nausea logs, the summary text equals
the fixed layout (dated header, totals, top patterns one per line in
sorted order) and in particular contains the substrings
`"Symptoms logged: 3"` and `"headache: 2x (avg severity 8.0)"`. -/
theorem get_health_summary_concrete_substrings (t1 t2 t3 today : String) :
    (get_health_summary (scenarioHHN t1 t2 t3) today).summary
      = "Health Summary - "
          ++ (today
            ++ ("\n" ++ eqBar
              ++ "\nSymptoms logged: 3\nMedications tracked: 0\n\nTop symptoms:\n  - headache: 2x (avg severity 8.0)\n  - nausea: 1x (avg severity 4.0)\n"))
    ∧ strContains ((get_health_summary (scenarioHHN t1 t2 t3) today).summary)
        "Symptoms logged: 3"
    ∧ strContains ((get_health_summary (scenarioHHN t1 t2 t3) today).summary)
        "headache: 2x (avg severity 8.0)"
    ∧ strContains ((get_health_summary (scenarioHHN t1 t2 t3) today).summary)
        "\nTop symptoms:\n  - headache: 2x (avg severity 8.0)\n  - nausea: 1x (avg severity 4.0)\n" := by
  have heq := summary_scenarioHHN t1 t2 t3 today
  refine ⟨heq, ?_, ?_, ?_⟩
  · rw [heq]
    apply strContains_mono_left
    apply strContains_mono_left
    rw [show ("\n" ++ eqBar
          ++ "\nSymptoms logged: 3\nMedications tracked: 0\n\nTop symptoms:\n  - headache: 2x (avg severity 8.0)\n  - nausea: 1x (avg severity 4.0)\n")
        = ("\n" ++ eqBar ++ "\n")
            ++ "Symptoms logged: 3"
            ++ "\nMedications tracked: 0\n\nTop symptoms:\n  - headache: 2x (avg severity 8.0)\n  - nausea: 1x (avg severity 4.0)\n"
      from by decide]
    exact strContains_of_append _ _ _
  · rw [heq]
    apply strContains_mono_left
    apply strContains_mono_left
    rw [show ("\n" ++ eqBar
          ++ "\nSymptoms logged: 3\nMedications tracked: 0\n\nTop symptoms:\n  - headache: 2x (avg severity 8.0)\n  - nausea: 1x (avg severity 4.0)\n")
        = ("\n" ++ eqBar ++ "\nSymptoms logged: 3\nMedications tracked: 0\n\nTop symptoms:\n  - ")
            ++ "headache: 2x (avg severity 8.0)"
            ++ "\n  - nausea: 1x (avg severity 4.0)\n"
      from by decide]
    exact strContains_of_append _ _ _
  · rw [heq]
    apply strContains_mono_left
    apply strContains_mono_left
    rw [show ("\n" ++ eqBar
          ++ "\nSymptoms logged: 3\nMedications tracked: 0\n\nTop symptoms:\n  - headache: 2x (avg severity 8.0)\n  - nausea: 1x (avg severity 4.0)\n")
        = ("\n" ++ eqBar ++ "\nSymptoms logged: 3\nMedications tracked: 0\n")
            ++ "\nTop symptoms:\n  - headache: 2x (avg severity 8.0)\n  - nausea: 1x (avg severity 4.0)\n"
            ++ ""
      from by decide]
    exact strContains_of_append _ _ _

/-- Claim C9: `get_health_summary` always returns status `"success"`
together with the composed summary text and both raw snapshots — for
every store state, including the empty one; there is no error or
`no_data` result. -/
theorem get_health_summary_always_success (st : HealthStore) (today : String) :
    (get_health_summary st today).status = "success"
    ∧ (get_health_summary st today).symptoms = st.get_symptoms
    ∧ (get_health_summary st today).medications = st.get_medications :=
  ⟨rfl, rfl, rfl⟩

/-- Claim C10: because the implementation slices `[-limit:]` and `-0`
denotes the start of the list, `get_symptoms(0)` and
`get_medications(0)` return ALL stored entries, not an empty list. -/
theorem get_symptoms_zero_limit_returns_all (st : HealthStore) :
    st.get_symptoms 0 = st.symptoms
    ∧ st.get_medications 0 = st.medications
    ∧ (st.get_symptoms 0).length = st.symptoms.length := by
  refine ⟨?_, ?_, ?_⟩ <;>
    simp [HealthStore.get_symptoms, HealthStore.get_medications, pySliceLast]

end HealthJournal
